import Mathlib

/-
Verification of the MonkeySeeMonkeyDrum repository.

The development shallowly embeds the two Python source files:

  * src/midi/midi_manager.py — class MidiManager, a thin wrapper over the
    mido MIDI I/O library.  The wrapped library is modelled by explicit
    outcome parameters (one per library call a method performs): the
    enumeration of port names either yields a list or raises, opening a
    port either yields a handle or raises, sending either succeeds or
    raises, closing either succeeds or raises, and a registered input
    callback either returns or raises.  Each method returns, besides the
    post-state, the observable effects of the call: the messages that were
    handed to the output handle, the handles on which close was invoked,
    the (message, timestamp) pairs handed to the registered callback, and
    a Boolean recording whether an exception escaped the method to its
    caller.  A method translated from a body whose library call is wrapped
    in try/except yields raised = false on the raising outcome; a method
    whose library call is NOT wrapped yields raised = true there.

  * src/gui/main_window.py — class MainWindow (PySide6).  Only the widget
    state the handlers read or write is modelled: the placeholder label
    text, the transport button captions and the Record toggle flag, the
    two combo boxes, and the owned MidiManager.  Handlers return the new
    window state together with the list of side effects they perform
    (console prints).

The TransportController of the design spec (section 4.5) has no
implementation under src/; it is modelled from the spec where a claim
needs it, and marked as such.
-/

namespace MonkeySee

/-! ## The mido library boundary

Abstract outcomes of the library calls MidiManager performs.  A handle is
an abstract identifier (the model never inspects it). -/

/-- Outcome of mido.get_output_names() / mido.get_input_names(). -/
inductive ListPortsOutcome where
  | ok (ports : List String)
  | raises
deriving DecidableEq, Repr

/-- Outcome of mido.open_output(name) / mido.open_input(name, callback). -/
inductive OpenOutcome where
  | ok (handle : Nat)
  | raises
deriving DecidableEq, Repr

/-- Outcome of handle.send(msg). -/
inductive SendOutcome where
  | ok
  | raises
deriving DecidableEq, Repr

/-- Outcome of handle.close(). -/
inductive CloseOutcome where
  | ok
  | raises
deriving DecidableEq, Repr

/-- Outcome of invoking the registered input callback. -/
inductive CallbackOutcome where
  | ok
  | raises
deriving DecidableEq, Repr

/-- True exactly on the raising outcome of a send. -/
def SendOutcome.isRaises : SendOutcome → Bool
  | .ok => false
  | .raises => true

/-- The handle produced by an open attempt, if it succeeded. -/
def OpenOutcome.opened : OpenOutcome → Option Nat
  | .ok h => some h
  | .raises => none

end MonkeySee

namespace mido

/-- The slice of mido.Message the repository constructs and forwards:
a message kind string plus channel / note / velocity data bytes. -/
structure Message where
  kind : String
  channel : Nat
  note : Nat
  velocity : Nat
deriving DecidableEq, Repr

end mido

namespace MonkeySee

/-! ## MidiManager state (src/midi/midi_manager.py) -/

/-- The instance attributes set up by MidiManager.__init__.  Handles are
abstract identifiers; the registered input callback is likewise an
abstract identifier (the manager only stores and invokes it). -/
structure MidiManager where
  current_output_name : Option String
  current_output : Option Nat
  current_input_name : Option String
  current_input : Option Nat
  input_callback : Option Nat
deriving DecidableEq, Repr

/-- MidiManager.__init__: every attribute starts as None. -/
def MidiManager.init : MidiManager :=
  { current_output_name := none
    current_output := none
    current_input_name := none
    current_input := none
    input_callback := none }

/-- Result of select_output / select_input: post-state, the Boolean return
value, the handles close() was invoked on, and whether an exception
escaped to the caller. -/
structure SelectResult where
  state : MidiManager
  ret : Bool
  closed : List Nat
  raised : Bool
deriving DecidableEq, Repr

/-- Result of send_test_note / send_message: post-state, the messages
handed to current_output.send, and whether an exception escaped. -/
structure SendResult where
  state : MidiManager
  sent : List mido.Message
  raised : Bool
deriving DecidableEq, Repr

/-- Result of the input-message handler: post-state, the
(message, timestamp) pairs handed to the registered callback, and whether
an exception escaped back into the device callback thread. -/
structure HandleResult where
  state : MidiManager
  delivered : List (mido.Message × Nat)
  raised : Bool
deriving DecidableEq, Repr

/-- Result of close_all: post-state, the handles close() was invoked on,
and whether an exception escaped. -/
structure CloseAllResult where
  state : MidiManager
  closed : List Nat
  raised : Bool
deriving DecidableEq, Repr

/-- MidiManager.list_output_ports: mido.get_output_names() inside
try/except; on an exception the error is printed and ports becomes [].
Returns (ports, raised); raised is false on both paths because the except
clause catches everything. -/
def MidiManager.list_output_ports (_m : MidiManager) (env : ListPortsOutcome) :
    List String × Bool :=
  match env with
  | .ok ports => (ports, false)
  | .raises => ([], false)

/-- MidiManager.list_input_ports: same shape over mido.get_input_names(). -/
def MidiManager.list_input_ports (_m : MidiManager) (env : ListPortsOutcome) :
    List String × Bool :=
  match env with
  | .ok ports => (ports, false)
  | .raises => ([], false)

/-- MidiManager.select_output(name).  First, if an output is open, close()
it — any close exception is swallowed by a bare except: pass — and set
both output attributes to None.  Then: an empty name returns False; else
mido.open_output(name) is attempted inside try/except, setting both
attributes and returning True on success, resetting both to None and
returning False on an exception.  closeEnv is the outcome of the close()
call (it cannot influence the result, matching the except: pass). -/
def MidiManager.select_output (m : MidiManager) (name : String)
    (_closeEnv : CloseOutcome) (openEnv : OpenOutcome) : SelectResult :=
  let closed := m.current_output.toList
  let m1 :=
    if m.current_output.isSome then
      { m with current_output := none, current_output_name := none }
    else m
  if name = "" then
    { state := m1, ret := false, closed := closed, raised := false }
  else
    match openEnv with
    | .ok h =>
        { state := { m1 with current_output := some h,
                             current_output_name := some name }
          ret := true, closed := closed, raised := false }
    | .raises =>
        { state := { m1 with current_output := none,
                             current_output_name := none }
          ret := false, closed := closed, raised := false }

/-- MidiManager.send_test_note: if no output is open, print and return.
Otherwise build the hard-coded note_on (channel 0, note 60, velocity 100)
and hand it to current_output.send — with no try/except, so a raising
send escapes to the caller.  sent records the messages handed to send. -/
def MidiManager.send_test_note (m : MidiManager) (env : SendOutcome) : SendResult :=
  match m.current_output with
  | none => { state := m, sent := [], raised := false }
  | some _ =>
      let msg_on : mido.Message :=
        { kind := "note_on", channel := 0, note := 60, velocity := 100 }
      { state := m, sent := [msg_on], raised := env.isRaises }

/-- MidiManager.send_message(msg): if no output is open, print and return;
otherwise hand msg to current_output.send — again with no try/except. -/
def MidiManager.send_message (m : MidiManager) (msg : mido.Message)
    (env : SendOutcome) : SendResult :=
  match m.current_output with
  | none => { state := m, sent := [], raised := false }
  | some _ => { state := m, sent := [msg], raised := env.isRaises }

/-- MidiManager.select_input(name, callback).  First, if an input is open,
close() it (exception swallowed) and set current_input,
current_input_name and input_callback to None.  An empty name returns
False.  Otherwise input_callback is assigned before the open attempt;
mido.open_input(name, callback) runs inside try/except — success sets
both input attributes and returns True, an exception resets all three
attributes to None and returns False. -/
def MidiManager.select_input (m : MidiManager) (name : String)
    (callback : Option Nat) (_closeEnv : CloseOutcome) (openEnv : OpenOutcome) :
    SelectResult :=
  let closed := m.current_input.toList
  let m1 :=
    if m.current_input.isSome then
      { m with current_input := none, current_input_name := none,
               input_callback := none }
    else m
  if name = "" then
    { state := m1, ret := false, closed := closed, raised := false }
  else
    let m2 := { m1 with input_callback := callback }
    match openEnv with
    | .ok h =>
        { state := { m2 with current_input := some h,
                             current_input_name := some name }
          ret := true, closed := closed, raised := false }
    | .raises =>
        { state := { m2 with current_input := none,
                             current_input_name := none,
                             input_callback := none }
          ret := false, closed := closed, raised := false }

/-- MidiManager._handle_input_message(message), called by mido from a
background thread.  ts is the time.monotonic() reading taken on entry.
If a callback is registered it is invoked with (message, ts) inside
try/except, so a raising callback is caught and printed (raised = false
on every path); with no callback the message is dropped. -/
def MidiManager.handle_input_message (m : MidiManager) (message : mido.Message)
    (ts : Nat) (cbEnv : CallbackOutcome) : HandleResult :=
  match m.input_callback with
  | none => { state := m, delivered := [], raised := false }
  | some _ =>
      match cbEnv with
      | .ok => { state := m, delivered := [(message, ts)], raised := false }
      | .raises => { state := m, delivered := [(message, ts)], raised := false }

/-- MidiManager.close_all: close the output if open (exception swallowed)
and set both output attributes to None; then the same for the input.  The
input_callback attribute is not touched. -/
def MidiManager.close_all (m : MidiManager)
    (_outEnv _inEnv : CloseOutcome) : CloseAllResult :=
  let closedOut := m.current_output.toList
  let m1 :=
    if m.current_output.isSome then
      { m with current_output := none, current_output_name := none }
    else m
  let closedIn := m1.current_input.toList
  let m2 :=
    if m1.current_input.isSome then
      { m1 with current_input := none, current_input_name := none }
    else m1
  { state := m2, closed := closedOut ++ closedIn, raised := false }

/-! ## Reachable MidiManager states -/

/-- States a MidiManager instance can be in: freshly constructed, or the
post-state of any method call, under every library behaviour. -/
inductive Reachable : MidiManager → Prop where
  | init : Reachable MidiManager.init
  | select_output (m : MidiManager) (name : String)
      (cEnv : CloseOutcome) (oEnv : OpenOutcome) :
      Reachable m → Reachable (m.select_output name cEnv oEnv).state
  | select_input (m : MidiManager) (name : String) (cb : Option Nat)
      (cEnv : CloseOutcome) (oEnv : OpenOutcome) :
      Reachable m → Reachable (m.select_input name cb cEnv oEnv).state
  | send_test_note (m : MidiManager) (env : SendOutcome) :
      Reachable m → Reachable (m.send_test_note env).state
  | send_message (m : MidiManager) (msg : mido.Message) (env : SendOutcome) :
      Reachable m → Reachable (m.send_message msg env).state
  | handle_input_message (m : MidiManager) (msg : mido.Message) (ts : Nat)
      (cbEnv : CallbackOutcome) :
      Reachable m → Reachable (m.handle_input_message msg ts cbEnv).state
  | close_all (m : MidiManager) (oEnv iEnv : CloseOutcome) :
      Reachable m → Reachable (m.close_all oEnv iEnv).state

/-- The name/handle pairing: a port name is recorded exactly when a handle
is held, on both the output and the input side. -/
def paired (m : MidiManager) : Prop :=
  m.current_output.isSome = m.current_output_name.isSome ∧
  m.current_input.isSome = m.current_input_name.isSome

instance (m : MidiManager) : Decidable (paired m) := by
  unfold paired; infer_instance

/-! ## MainWindow (src/gui/main_window.py)

Only the widget state the handlers read or write is modelled.  A combo
box is its item list, current index and enabled flag.  Side effects other
than widget/manager mutation are collected in a trace: console prints. -/

/-- A QComboBox, as far as the handlers observe it. -/
structure ComboBox where
  items : List String
  currentIndex : Nat
  enabled : Bool
deriving DecidableEq, Repr

/-- A side effect a handler performs besides mutating modelled state. -/
inductive Effect where
  | printed (s : String)
deriving DecidableEq, Repr

/-- The MainWindow widget state the handlers touch, plus the owned
MidiManager. -/
structure MainWindow where
  midi_manager : MidiManager
  placeholder_label : String
  play_button_text : String
  stop_button_text : String
  record_button_text : String
  record_checked : Bool
  test_note_enabled : Bool
  input_combo : ComboBox
  output_combo : ComboBox
deriving DecidableEq, Repr

/-- MainWindow._on_play_clicked: print and set the placeholder label. -/
def MainWindow.on_play_clicked (w : MainWindow) : MainWindow × List Effect :=
  ({ w with placeholder_label := "Play clicked\n(Placeholder: no audio yet)" },
   [.printed "Play clicked"])

/-- MainWindow._on_stop_clicked: print and set the placeholder label. -/
def MainWindow.on_stop_clicked (w : MainWindow) : MainWindow × List Effect :=
  ({ w with placeholder_label := "Stop clicked\n(Placeholder: transport stopped)" },
   [.printed "Stop clicked"])

/-- MainWindow._on_record_toggled(checked): print, set the Record button
caption, and set the placeholder label; checked selects which texts. -/
def MainWindow.on_record_toggled (w : MainWindow) (checked : Bool) :
    MainWindow × List Effect :=
  if checked then
    ({ w with record_button_text := "Recording..."
              placeholder_label := "Recording...\n(Placeholder: no MIDI yet)" },
     [.printed "Record started"])
  else
    ({ w with record_button_text := "Record"
              placeholder_label := "Recording stopped\n(Timeline / Drum Grid will go here)" },
     [.printed "Record stopped"])

/-- MainWindow._on_output_changed(name): ignore placeholder entries, else
delegate to midi_manager.select_output and report the outcome in the
placeholder label.  Included to witness that, unlike the transport
handlers, the device handlers do mutate MidiManager state. -/
def MainWindow.on_output_changed (w : MainWindow) (name : String)
    (cEnv : CloseOutcome) (oEnv : OpenOutcome) : MainWindow × List Effect :=
  if name = "" ∨ name = "Select MIDI Output" ∨ name = "No MIDI outputs" then
    (w, [])
  else
    let r := w.midi_manager.select_output name cEnv oEnv
    if r.ret then
      ({ w with midi_manager := r.state
                placeholder_label := "Selected MIDI output:\n" ++ name }, [])
    else
      ({ w with midi_manager := r.state
                placeholder_label := "Failed to open MIDI output:\n" ++ name }, [])

/-! ## TransportController (design spec section 4.5)

Modelled from the spec: no TransportController exists under src/ (the
spec describes it as the hard core the application would need next).
States Stopped / Playing / Recording / Paused; transitions
Stopped to Recording (arm RecordEngine, start Clock) and Paused to
Recording (resume) succeed; starting Recording while Playing fails with
InvalidStateError and causes no state change. -/

/-- Modelled from the spec: TransportState enum of section 3, owned by the
TransportController that src/ does not yet implement. -/
inductive TransportState where
  | Stopped
  | Playing
  | Recording
  | Paused
deriving DecidableEq, Repr

/-- Modelled from the spec: the error taxonomy entry for an illegal
transport transition (section 7). -/
inductive TransportError where
  | InvalidStateError
deriving DecidableEq, Repr

/-- Modelled from the spec: the start-Recording command of the
TransportController state machine (section 4.5).  Returns the next state
and an optional error; an error leaves the state unchanged: Stopped arms
and records, Paused resumes into Recording, Recording stays Recording,
and Playing is rejected with InvalidStateError because Recording and
Playing are mutually exclusive. -/
def TransportController.startRecording :
    TransportState → TransportState × Option TransportError
  | .Stopped => (.Recording, none)
  | .Paused => (.Recording, none)
  | .Recording => (.Recording, none)
  | .Playing => (.Playing, some .InvalidStateError)

/-! ## Helper lemmas -/

theorem select_output_raised_eq_false (m : MidiManager) (name : String)
    (cEnv : CloseOutcome) (oEnv : OpenOutcome) :
    (m.select_output name cEnv oEnv).raised = false := by
  cases oEnv <;> simp [MidiManager.select_output] <;> split <;> rfl

theorem select_input_raised_eq_false (m : MidiManager) (name : String)
    (cb : Option Nat) (cEnv : CloseOutcome) (oEnv : OpenOutcome) :
    (m.select_input name cb cEnv oEnv).raised = false := by
  cases oEnv <;> simp [MidiManager.select_input] <;> split <;> rfl

theorem send_test_note_raised_eq (m : MidiManager) (env : SendOutcome) :
    (m.send_test_note env).raised = (m.current_output.isSome && env.isRaises) := by
  cases h : m.current_output <;> simp [MidiManager.send_test_note, h]

theorem send_message_raised_eq (m : MidiManager) (msg : mido.Message)
    (env : SendOutcome) :
    (m.send_message msg env).raised = (m.current_output.isSome && env.isRaises) := by
  cases h : m.current_output <;> simp [MidiManager.send_message, h]

theorem handle_input_message_raised_eq_false (m : MidiManager)
    (msg : mido.Message) (ts : Nat) (cbEnv : CallbackOutcome) :
    (m.handle_input_message msg ts cbEnv).raised = false := by
  cases h : m.input_callback <;> cases cbEnv <;>
    simp [MidiManager.handle_input_message, h]

theorem close_all_raised_eq_false (m : MidiManager) (e1 e2 : CloseOutcome) :
    (m.close_all e1 e2).raised = false := by
  simp [MidiManager.close_all]

theorem select_output_paired (m : MidiManager) (name : String)
    (cEnv : CloseOutcome) (oEnv : OpenOutcome) (h : paired m) :
    paired (m.select_output name cEnv oEnv).state := by
  obtain ⟨h1, h2⟩ := h
  cases oEnv <;> simp only [MidiManager.select_output, paired] <;>
    split <;> split <;> simp_all

theorem select_input_paired (m : MidiManager) (name : String) (cb : Option Nat)
    (cEnv : CloseOutcome) (oEnv : OpenOutcome) (h : paired m) :
    paired (m.select_input name cb cEnv oEnv).state := by
  obtain ⟨h1, h2⟩ := h
  cases oEnv <;> simp only [MidiManager.select_input, paired] <;>
    split <;> split <;> simp_all

theorem close_all_paired (m : MidiManager) (e1 e2 : CloseOutcome) (h : paired m) :
    paired (m.close_all e1 e2).state := by
  obtain ⟨h1, h2⟩ := h
  simp only [MidiManager.close_all, paired] at *
  split <;> split <;> simp_all

/-- The pairing invariant holds in every reachable MidiManager state. -/
theorem reachable_paired (m : MidiManager) (h : Reachable m) : paired m := by
  induction h with
  | init => exact ⟨rfl, rfl⟩
  | select_output m name cEnv oEnv _ ih => exact select_output_paired m name cEnv oEnv ih
  | select_input m name cb cEnv oEnv _ ih => exact select_input_paired m name cb cEnv oEnv ih
  | send_test_note m env _ ih =>
      cases hc : m.current_output <;>
        simpa [MidiManager.send_test_note, hc] using ih
  | send_message m msg env _ ih =>
      cases hc : m.current_output <;>
        simpa [MidiManager.send_message, hc] using ih
  | handle_input_message m msg ts cbEnv _ ih =>
      cases hc : m.input_callback <;> cases cbEnv <;>
        simpa [MidiManager.handle_input_message, hc] using ih
  | close_all m e1 e2 _ ih => exact close_all_paired m e1 e2 ih

/-! ## The claims -/

/-- C1, counterexample: the claim says no MidiManager operation can crash
the process when the send fails, but send_test_note has no try/except
around current_output.send.  In the reachable state produced by opening
output "Drum Kit", a failing send escapes send_test_note to its caller. -/
theorem C1_counterexample :
    Reachable (MidiManager.init.select_output "Drum Kit" .ok (.ok 0)).state ∧
    ((MidiManager.init.select_output "Drum Kit" .ok (.ok 0)).state.send_test_note
        SendOutcome.raises).raised = true :=
  ⟨Reachable.select_output MidiManager.init "Drum Kit" .ok (.ok 0) Reachable.init,
   by decide⟩

/-- C1, amended: list_output_ports, list_input_ports, select_output,
select_input, close_all and the input-message handler catch every device
failure and never let an exception escape; but send_test_note and
send_message propagate the exception to the caller exactly when an output
is open and the underlying send raises. -/
theorem C1_amended (m : MidiManager) (name : String) (cb : Option Nat)
    (msg : mido.Message) (ts : Nat) (lEnvO lEnvI : ListPortsOutcome)
    (cEnv cEnv2 : CloseOutcome) (oEnv oEnv2 : OpenOutcome)
    (cbEnv : CallbackOutcome) (sEnv : SendOutcome) (e1 e2 : CloseOutcome) :
    (m.list_output_ports lEnvO).2 = false ∧
    (m.list_input_ports lEnvI).2 = false ∧
    (m.select_output name cEnv oEnv).raised = false ∧
    (m.select_input name cb cEnv2 oEnv2).raised = false ∧
    (m.close_all e1 e2).raised = false ∧
    (m.handle_input_message msg ts cbEnv).raised = false ∧
    (m.send_test_note sEnv).raised = (m.current_output.isSome && sEnv.isRaises) ∧
    (m.send_message msg sEnv).raised = (m.current_output.isSome && sEnv.isRaises) :=
  ⟨by cases lEnvO <;> rfl,
   by cases lEnvI <;> rfl,
   select_output_raised_eq_false m name cEnv oEnv,
   select_input_raised_eq_false m name cb cEnv2 oEnv2,
   close_all_raised_eq_false m e1 e2,
   handle_input_message_raised_eq_false m msg ts cbEnv,
   send_test_note_raised_eq m sEnv,
   send_message_raised_eq m msg sEnv⟩

/-- C2: the Play, Stop and Record-toggle handlers only set label text —
Play and Stop replace the placeholder label, Record additionally replaces
its own caption — leaving the MidiManager, the toggle flag, and every
other modelled widget untouched, and their only other effect is a console
print. -/
theorem C2_transport_handlers_only_set_labels (w : MainWindow) (checked : Bool) :
    w.on_play_clicked.1 =
      { w with placeholder_label := "Play clicked\n(Placeholder: no audio yet)" } ∧
    w.on_play_clicked.2 = [Effect.printed "Play clicked"] ∧
    w.on_stop_clicked.1 =
      { w with placeholder_label := "Stop clicked\n(Placeholder: transport stopped)" } ∧
    w.on_stop_clicked.2 = [Effect.printed "Stop clicked"] ∧
    (w.on_record_toggled checked).1 =
      { w with
          record_button_text := if checked then "Recording..." else "Record"
          placeholder_label :=
            if checked then "Recording...\n(Placeholder: no MIDI yet)"
            else "Recording stopped\n(Timeline / Drum Grid will go here)" } ∧
    (w.on_record_toggled checked).2 =
      [Effect.printed (if checked then "Record started" else "Record stopped")] := by
  cases checked <;>
    simp [MainWindow.on_play_clicked, MainWindow.on_stop_clicked,
      MainWindow.on_record_toggled]

/-- C3: send_test_note leaves the MidiManager state unchanged and, when an
output is open, hands exactly the one hard-coded note_on message
(channel 0, note 60, velocity 100) to that output — no note_off, nothing
else — while with no open output nothing is handed to any port. -/
theorem C3_send_test_note_single_note (m : MidiManager) (env : SendOutcome) :
    (m.send_test_note env).state = m ∧
    (m.send_test_note env).sent =
      (if m.current_output.isSome then
        [{ kind := "note_on", channel := 0, note := 60, velocity := 100 }]
       else ([] : List mido.Message)) := by
  cases h : m.current_output <;> simp [MidiManager.send_test_note, h]

/-- C5: the port-listing operations never raise — on the outcome where
the library raises they return the empty list, and on success they return
the names the library produced. -/
theorem C5_list_ports_never_raise (m : MidiManager)
    (envO envI : ListPortsOutcome) (ps qs : List String) :
    (m.list_output_ports envO).2 = false ∧
    (m.list_input_ports envI).2 = false ∧
    (m.list_output_ports .raises).1 = [] ∧
    (m.list_input_ports .raises).1 = [] ∧
    (m.list_output_ports (.ok ps)).1 = ps ∧
    (m.list_input_ports (.ok qs)).1 = qs := by
  cases envO <;> cases envI <;>
    simp [MidiManager.list_output_ports, MidiManager.list_input_ports]

/-- C6: the input-message handler never lets an exception escape back
into the device callback thread (whether or not the registered callback
raises), never changes MidiManager state, and delivers the message
together with the monotonic-clock reading taken on entry to the
registered callback exactly when one is registered. -/
theorem C6_handle_input_message_relays (m : MidiManager) (msg : mido.Message)
    (ts : Nat) (cbEnv : CallbackOutcome) :
    (m.handle_input_message msg ts cbEnv).raised = false ∧
    (m.handle_input_message msg ts cbEnv).state = m ∧
    (m.handle_input_message msg ts cbEnv).delivered =
      (if m.input_callback.isSome then [(msg, ts)] else []) := by
  cases h : m.input_callback <;> cases cbEnv <;>
    simp [MidiManager.handle_input_message, h]

/-- C7: starting Recording while the transport is Playing is rejected
with InvalidStateError and the TransportController stays in Playing. -/
theorem C7_startRecording_while_playing_rejected :
    TransportController.startRecording .Playing =
      (.Playing, some .InvalidStateError) := rfl

/-- C4: when the open attempt on a (non-empty) port name fails, both
selectors return False without raising, and afterwards the port is
unselected: handle and name are None on the respective side, and
select_input additionally leaves input_callback None. -/
theorem C4_open_failure_leaves_unselected (m : MidiManager) (name : String)
    (cb : Option Nat) (cEnv cEnv2 : CloseOutcome) (h : name ≠ "") :
    (m.select_output name cEnv .raises).ret = false ∧
    (m.select_output name cEnv .raises).raised = false ∧
    (m.select_output name cEnv .raises).state.current_output = none ∧
    (m.select_output name cEnv .raises).state.current_output_name = none ∧
    (m.select_input name cb cEnv2 .raises).ret = false ∧
    (m.select_input name cb cEnv2 .raises).raised = false ∧
    (m.select_input name cb cEnv2 .raises).state.current_input = none ∧
    (m.select_input name cb cEnv2 .raises).state.current_input_name = none ∧
    (m.select_input name cb cEnv2 .raises).state.input_callback = none := by
  simp [MidiManager.select_output, MidiManager.select_input, h]

/-- C4 at a concrete input: opening "Drum Pad" on a fresh manager with a
raising open attempt. -/
theorem C4_witness :
    ("Drum Pad" ≠ "") ∧
    ((MidiManager.init.select_output "Drum Pad" .ok .raises).ret = false ∧
     (MidiManager.init.select_output "Drum Pad" .ok .raises).raised = false ∧
     (MidiManager.init.select_output "Drum Pad" .ok .raises).state.current_output = none ∧
     (MidiManager.init.select_output "Drum Pad" .ok .raises).state.current_output_name = none ∧
     (MidiManager.init.select_input "Drum Pad" (some 7) .ok .raises).ret = false ∧
     (MidiManager.init.select_input "Drum Pad" (some 7) .ok .raises).raised = false ∧
     (MidiManager.init.select_input "Drum Pad" (some 7) .ok .raises).state.current_input = none ∧
     (MidiManager.init.select_input "Drum Pad" (some 7) .ok .raises).state.current_input_name = none ∧
     (MidiManager.init.select_input "Drum Pad" (some 7) .ok .raises).state.input_callback = none) :=
  ⟨by decide,
   C4_open_failure_leaves_unselected MidiManager.init "Drum Pad" (some 7) .ok .ok
     (by decide)⟩

/-- C8: in every reachable MidiManager state a handle is held exactly
when the matching port name is recorded, on both the output and the
input side. -/
theorem C8_name_handle_pairing (m : MidiManager) (h : Reachable m) : paired m :=
  reachable_paired m h

/-- C8 at a concrete reachable state: after successfully opening output
"Drum Kit" on a fresh manager. -/
theorem C8_witness :
    Reachable (MidiManager.init.select_output "Drum Kit" .ok (.ok 2)).state ∧
    paired (MidiManager.init.select_output "Drum Kit" .ok (.ok 2)).state :=
  ⟨Reachable.select_output MidiManager.init "Drum Kit" .ok (.ok 2) Reachable.init,
   C8_name_handle_pairing _
     (Reachable.select_output MidiManager.init "Drum Kit" .ok (.ok 2) Reachable.init)⟩

/-- C9: both selectors invoke close() on exactly the previously held
handle (and on nothing when none was held), and after the call the
selected handle and name are those of the fresh open on success and None
otherwise — in particular a failed or empty-name call never restores the
prior selection.  Stated over states satisfying the name/handle pairing,
which holds in every reachable state. -/
theorem C9_select_clears_previous_port (m : MidiManager) (name : String)
    (cb : Option Nat) (c1 c2 : CloseOutcome) (o1 o2 : OpenOutcome)
    (hp : paired m) :
    (m.select_output name c1 o1).closed = m.current_output.toList ∧
    (m.select_output name c1 o1).state.current_output =
      (if (m.select_output name c1 o1).ret then o1.opened else none) ∧
    (m.select_output name c1 o1).state.current_output_name =
      (if (m.select_output name c1 o1).ret then some name else none) ∧
    (m.select_input name cb c2 o2).closed = m.current_input.toList ∧
    (m.select_input name cb c2 o2).state.current_input =
      (if (m.select_input name cb c2 o2).ret then o2.opened else none) ∧
    (m.select_input name cb c2 o2).state.current_input_name =
      (if (m.select_input name cb c2 o2).ret then some name else none) := by
  obtain ⟨h1, h2⟩ := hp
  by_cases hn : name = "" <;> cases o1 <;> cases o2 <;>
    simp [MidiManager.select_output, MidiManager.select_input,
      OpenOutcome.opened, hn] <;>
    split_ifs <;> simp_all [Option.not_isSome_iff_eq_none]

/-- C9 at a concrete input: a manager holding output handle 0 under the
name "Drum Kit" is asked for output "Room Kit" and the open raises; the
old handle is closed and no selection survives. -/
theorem C9_witness :
    paired (MidiManager.init.select_output "Drum Kit" .ok (.ok 0)).state ∧
    (((MidiManager.init.select_output "Drum Kit" .ok (.ok 0)).state.select_output
        "Room Kit" .ok .raises).closed =
      (MidiManager.init.select_output "Drum Kit" .ok (.ok 0)).state.current_output.toList ∧
     ((MidiManager.init.select_output "Drum Kit" .ok (.ok 0)).state.select_output
        "Room Kit" .ok .raises).state.current_output =
      (if ((MidiManager.init.select_output "Drum Kit" .ok (.ok 0)).state.select_output
            "Room Kit" .ok .raises).ret then OpenOutcome.raises.opened else none) ∧
     ((MidiManager.init.select_output "Drum Kit" .ok (.ok 0)).state.select_output
        "Room Kit" .ok .raises).state.current_output_name =
      (if ((MidiManager.init.select_output "Drum Kit" .ok (.ok 0)).state.select_output
            "Room Kit" .ok .raises).ret then some "Room Kit" else none) ∧
     ((MidiManager.init.select_output "Drum Kit" .ok (.ok 0)).state.select_input
        "Room Kit" (some 4) .ok .raises).closed =
      (MidiManager.init.select_output "Drum Kit" .ok (.ok 0)).state.current_input.toList ∧
     ((MidiManager.init.select_output "Drum Kit" .ok (.ok 0)).state.select_input
        "Room Kit" (some 4) .ok .raises).state.current_input =
      (if ((MidiManager.init.select_output "Drum Kit" .ok (.ok 0)).state.select_input
            "Room Kit" (some 4) .ok .raises).ret then OpenOutcome.raises.opened else none) ∧
     ((MidiManager.init.select_output "Drum Kit" .ok (.ok 0)).state.select_input
        "Room Kit" (some 4) .ok .raises).state.current_input_name =
      (if ((MidiManager.init.select_output "Drum Kit" .ok (.ok 0)).state.select_input
            "Room Kit" (some 4) .ok .raises).ret then some "Room Kit" else none)) :=
  ⟨by decide,
   C9_select_clears_previous_port
     (MidiManager.init.select_output "Drum Kit" .ok (.ok 0)).state
     "Room Kit" (some 4) .ok .ok .raises .raises (by decide)⟩

theorem close_all_state_fields (m : MidiManager) (hp : paired m)
    (e1 e2 : CloseOutcome) :
    (m.close_all e1 e2).state.current_output = none ∧
    (m.close_all e1 e2).state.current_output_name = none ∧
    (m.close_all e1 e2).state.current_input = none ∧
    (m.close_all e1 e2).state.current_input_name = none := by
  obtain ⟨h1, h2⟩ := hp
  simp only [MidiManager.close_all]
  split <;> split <;> simp_all

theorem close_all_handles_none (m : MidiManager) (e1 e2 : CloseOutcome) :
    (m.close_all e1 e2).state.current_output = none ∧
    (m.close_all e1 e2).state.current_input = none := by
  simp only [MidiManager.close_all]
  split <;> split <;> simp_all

theorem close_all_idem (m : MidiManager) (e1 e2 e3 e4 : CloseOutcome) :
    ((m.close_all e1 e2).state.close_all e3 e4).state = (m.close_all e1 e2).state ∧
    ((m.close_all e1 e2).state.close_all e3 e4).closed = [] := by
  obtain ⟨ho, hi⟩ := close_all_handles_none m e1 e2
  generalize hs : (m.close_all e1 e2).state = s at ho hi ⊢
  constructor <;> simp [MidiManager.close_all, ho, hi]

/-- C10: from any reachable state, close_all never raises (even when a
close() raises), leaves handle and name None on both sides, and running
it again from the state it produced changes nothing and closes nothing. -/
theorem C10_close_all_total_and_idempotent (m : MidiManager)
    (e1 e2 e3 e4 : CloseOutcome) (h : Reachable m) :
    (m.close_all e1 e2).raised = false ∧
    (m.close_all e1 e2).state.current_output = none ∧
    (m.close_all e1 e2).state.current_output_name = none ∧
    (m.close_all e1 e2).state.current_input = none ∧
    (m.close_all e1 e2).state.current_input_name = none ∧
    ((m.close_all e1 e2).state.close_all e3 e4).state = (m.close_all e1 e2).state ∧
    ((m.close_all e1 e2).state.close_all e3 e4).closed = [] := by
  obtain ⟨s1, s2, s3, s4⟩ := close_all_state_fields m (reachable_paired m h) e1 e2
  obtain ⟨i1, i2⟩ := close_all_idem m e1 e2 e3 e4
  exact ⟨close_all_raised_eq_false m e1 e2, s1, s2, s3, s4, i1, i2⟩

/-- The reachable state used to witness C10: fresh manager, then a
successful select_input of "Pads". -/
def w10 : MidiManager :=
  (MidiManager.init.select_input "Pads" (some 3) .ok (.ok 5)).state

/-- C10 at a concrete reachable state with an open input, with a raising
close() on the in-use side. -/
theorem C10_witness :
    Reachable w10 ∧
    ((w10.close_all .ok .raises).raised = false ∧
     (w10.close_all .ok .raises).state.current_output = none ∧
     (w10.close_all .ok .raises).state.current_output_name = none ∧
     (w10.close_all .ok .raises).state.current_input = none ∧
     (w10.close_all .ok .raises).state.current_input_name = none ∧
     ((w10.close_all .ok .raises).state.close_all .raises .ok).state =
       (w10.close_all .ok .raises).state ∧
     ((w10.close_all .ok .raises).state.close_all .raises .ok).closed = []) :=
  ⟨Reachable.select_input MidiManager.init "Pads" (some 3) .ok (.ok 5) Reachable.init,
   C10_close_all_total_and_idempotent w10 .ok .raises .raises .ok
     (Reachable.select_input MidiManager.init "Pads" (some 3) .ok (.ok 5)
       Reachable.init)⟩

end MonkeySee
